import Mathlib

/-!
# Verification of the session / authorization core of `safvan-husain/webapp`

Shallow embedding of:
* `src/lib/session.ts` — JWT session codec (`encrypt`, `decrypt`, `updateSession`);
* `src/lib/dal.ts` — authoritative authorization gate (`verifySession`, `getUser`),
  including the React `cache()` per-request memoization;
* `src/lib/services/profile.service.ts` — profile creation with the
  single-profile-per-user linkage invariant;
* the edge middleware (`proxy`).

Modelling conventions:
* All clocks are a single `Nat` of milliseconds (`jose` uses seconds for the
  `iat`/`exp` claims and `Date` uses milliseconds; only relative comparisons
  matter, so one unit is used throughout).
* HMAC-SHA256 over the serialized claims is modelled by the executable
  function `hmac`; the development relies only on its determinism, never on
  collision-freeness.
* JSON claims may be absent at runtime (the TypeScript types claim `string`,
  but `payload.userId as string` is a compile-time cast, not a check), so
  claim fields are `Option`-valued.  `new Date(undefined)` (an Invalid Date)
  is modelled as `none`.
* The environment (`process.env.SESSION_SECRET`) is an `Option String`
  parameter; thrown exceptions are `Except.error`; Next.js `redirect(url)`
  (which throws) is `Except.error url`.
-/

deriving instance DecidableEq for Except

namespace Webapp

/-- The claim set of a decoded JWT, as produced by `SignJWT` in `encrypt`
(`src/lib/session.ts`): the custom claims `userId`, `userType`,
`expiresAt` (an ISO date, kept here as its millisecond value) plus the
registered claims `iat` (from `setIssuedAt`) and `exp`
(from `setExpirationTime` with "7d"). -/
structure JwtClaims where
  userId : Option String
  userType : Option String
  expiresAt : Option Nat
  iat : Nat
  exp : Nat
  deriving Repr, DecidableEq

/-- A candidate token string: either not a syntactically valid JWS at all
(`malformed`), or a compact JWS with a protected-header algorithm, a decoded
claim set and a signature value. -/
inductive Token where
  | malformed (raw : String)
  | jwt (alg : String) (claims : JwtClaims) (sig : Nat)
  deriving Repr, DecidableEq

/-- Numeric code of a string, used by the HMAC stand-in. -/
def strCode (s : String) : Nat :=
  s.data.foldl (fun a c => a * 131 + c.toNat) 7

/-- Code of an optional string claim (distinguishes absence from any value). -/
def optStrCode : Option String → Nat
  | none => 0
  | some s => strCode s + 1

/-- Code of an optional numeric claim. -/
def optNatCode : Option Nat → Nat
  | none => 0
  | some n => n + 1

/-- Executable stand-in for HMAC-SHA256 of the serialized claims under the
server key.  Only determinism is used in the proofs: `verify` accepts exactly
the signatures this function produces for the same key and claims. -/
def hmac (key : String) (c : JwtClaims) : Nat :=
  ((((strCode key * 1000003 + optStrCode c.userId) * 1009
      + optStrCode c.userType) * 1013
      + optNatCode c.expiresAt) * 1019
      + c.iat) * 1021 + c.exp

/-- `getEncodedKey` (`src/lib/session.ts:6-16`): reads
`process.env.SESSION_SECRET` on every call and throws when it is unset.
The `Buffer`/`TextEncoder` encoding of the secret is identity here. -/
def getEncodedKey (env : Option String) : Except String String :=
  match env with
  | none => .error "SESSION_SECRET environment variable is not set"
  | some k => .ok k

/-- Seven days in milliseconds (`7 * 24 * 60 * 60 * 1000`), the fixed
session lifetime used by `setExpirationTime` with "7d", `createSession` and
`updateSession`. -/
def SEVEN_DAYS : Nat := 7 * 24 * 60 * 60 * 1000

/-- The session payload type of `src/lib/session.ts` as it exists at
runtime: each field is whatever the decoded JSON claim held, possibly
absent (the declared TypeScript type `{userId: string, userType: UserType,
expiresAt: Date}` is not enforced by any runtime check in `decrypt`). -/
structure SessionPayload where
  userId : Option String
  userType : Option String
  expiresAt : Option Nat
  deriving Repr, DecidableEq

/-- `encrypt` (`src/lib/session.ts:29-39`): signs the payload claims with
HS256 under the key from `getEncodedKey`, setting `iat` to the current time
and `exp` seven days later.  A missing key propagates as a thrown error. -/
def encrypt (env : Option String) (now : Nat) (p : SessionPayload) :
    Except String Token :=
  match getEncodedKey env with
  | .error e => .error e
  | .ok key =>
    let claims : JwtClaims :=
      { userId := p.userId, userType := p.userType, expiresAt := p.expiresAt,
        iat := now, exp := now + SEVEN_DAYS }
    .ok (.jwt "HS256" claims (hmac key claims))

/-- The `jose` call `jwtVerify` with the HS256 allow-list: rejects a
malformed encoding, a header algorithm outside the allow-list, a signature
that does not match the key, and an expired `exp` claim (`exp ≤ now`);
otherwise yields the claim set.  Errors are thrown (modelled as `.error`). -/
def jwtVerify (tok : Token) (key : String) (now : Nat) :
    Except String JwtClaims :=
  match tok with
  | .malformed _ => .error "JWSInvalid: Invalid Compact JWS"
  | .jwt alg claims sig =>
    if alg ≠ "HS256" then .error "JOSEAlgNotAllowed"
    else if sig ≠ hmac key claims then
      .error "JWSSignatureVerificationFailed"
    else if claims.exp ≤ now then .error "JWTExpired"
    else .ok claims

/-- `decrypt` (`src/lib/session.ts:46-65`): `undefined` for an absent token;
otherwise runs `getEncodedKey` and `jwtVerify` inside a `try` whose `catch`
returns `undefined`, so every failure (including a missing key) collapses to
`none`; on success the claims are passed through as the session payload with
no validation of `userId` or `userType`. -/
def decrypt (env : Option String) (now : Nat) (session : Option Token) :
    Option SessionPayload :=
  match session with
  | none => none
  | some tok =>
    match getEncodedKey env with
    | .error _ => none
    | .ok key =>
      match jwtVerify tok key now with
      | .error _ => none
      | .ok claims =>
        some { userId := claims.userId, userType := claims.userType,
               expiresAt := claims.expiresAt }

/-- `updateSession` (`src/lib/session.ts:92-115`): reads the `session`
cookie, decrypts it; when that yields nothing it returns without touching
the cookie; otherwise it re-encrypts the same `userId`/`userType` with a
fresh seven-day expiry and overwrites the cookie.  The result is the cookie
jar after the call (`.error` would be a thrown exception from `encrypt`). -/
def updateSession (env : Option String) (now : Nat) (jar : Option Token) :
    Except String (Option Token) :=
  match decrypt env now jar with
  | none => .ok jar
  | some payload =>
    match encrypt env now
        { userId := payload.userId, userType := payload.userType,
          expiresAt := some (now + SEVEN_DAYS) } with
    | .error e => .error e
    | .ok tok => .ok (some tok)

/-! ## Authorization gate (`src/lib/dal.ts`) -/

/-- JavaScript truthiness of an optional string (`undefined` and the empty
string are falsy), as used by `!session?.userId`. -/
def strTruthy : Option String → Bool
  | none => false
  | some s => s ≠ ""

/-- The value returned by `verifySession` (`src/lib/dal.ts:9-13`). -/
structure SessionData where
  isAuth : Bool
  userId : String
  userType : Option String
  deriving Repr, DecidableEq

/-- A row of the `User` table, restricted to the columns the core reads
(`id`, `email`, `fullName`, `userType`, `refObjectId`).  `userType` is a
string so that the model can also carry out-of-enumeration role values. -/
structure User where
  id : String
  email : String
  fullName : String
  userType : String
  refObjectId : Option String
  deriving Repr, DecidableEq

/-- The collaborator lookup `prisma.user.findUnique({where: {id}})`. -/
def findUserById (users : List User) (uid : String) : Option User :=
  users.find? (fun u => u.id = uid)

/-- `verifySession` (`src/lib/dal.ts:20-34`) without its `cache()` wrapper:
reads the `session` cookie, decrypts it, and when `session?.userId` is falsy
performs `redirect` to `/login` (a thrown control-flow effect, modelled as
`.error "/login"`); otherwise returns the session data. -/
def verifySession (env : Option String) (now : Nat) (cookie : Option Token) :
    Except String SessionData :=
  match decrypt env now cookie with
  | none => .error "/login"
  | some s =>
    match s.userId with
    | none => .error "/login"
    | some uid =>
      if uid = "" then .error "/login"
      else .ok { isAuth := true, userId := uid, userType := s.userType }

/-- `getUser` (`src/lib/dal.ts:41-57`) without its `cache()` wrapper:
verifies the session (redirecting on failure) and then returns the result of
the user lookup to the caller — `null` (`none`) when no row matches. -/
def getUser (env : Option String) (now : Nat) (cookie : Option Token)
    (users : List User) : Except String (Option User) :=
  match verifySession env now cookie with
  | .error r => .error r
  | .ok s => .ok (findUserById users s.userId)

/-! ### Per-request memoization

`verifySession` and `getUser` are wrapped in the React `cache()` primitive, whose
contract (modelled here from its documentation, as third-party collaborator
code) is a memo table created fresh for each request and discarded with it:
the first call computes and records the result, later calls in the same
request return the record without recomputing. -/

/-- The per-request memo state of the two `cache()` wrappers in
`src/lib/dal.ts`, instrumented with counters for the two expensive effects:
cryptographic verification (`decrypt` calls) and collaborator storage
lookups (`findUserById` calls). -/
structure ReqState where
  memoVerify : Option (Except String SessionData)
  memoGetUser : Option (Except String (Option User))
  decryptCalls : Nat
  dbLookups : Nat

/-- The memo state at the start of a request: nothing cached, no effects. -/
def freshReq : ReqState :=
  { memoVerify := none, memoGetUser := none, decryptCalls := 0, dbLookups := 0 }

/-- `cache(verifySession)`: return the memoized result when present,
otherwise run `verifySession` (one `decrypt`) and record the result. -/
def verifySessionCached (env : Option String) (now : Nat)
    (cookie : Option Token) (st : ReqState) :
    Except String SessionData × ReqState :=
  match st.memoVerify with
  | some r => (r, st)
  | none =>
    let r := verifySession env now cookie
    (r, { st with memoVerify := some r, decryptCalls := st.decryptCalls + 1 })

/-- `cache(getUser)`: return the memoized result when present, otherwise
call the cached `verifySession`; on redirect the thrown effect propagates,
on success perform one storage lookup and record the result. -/
def getUserCached (env : Option String) (now : Nat) (cookie : Option Token)
    (users : List User) (st : ReqState) :
    Except String (Option User) × ReqState :=
  match st.memoGetUser with
  | some r => (r, st)
  | none =>
    match verifySessionCached env now cookie st with
    | (.error r, st1) => (.error r, st1)
    | (.ok s, st1) =>
      let r : Except String (Option User) := .ok (findUserById users s.userId)
      (r, { st1 with memoGetUser := some r, dbLookups := st1.dbLookups + 1 })

/-- `n` successive calls of the cached `getUser` within one request,
returning the final memo state. -/
def iterGetUser (env : Option String) (now : Nat) (cookie : Option Token)
    (users : List User) : Nat → ReqState → ReqState
  | 0, st => st
  | n + 1, st =>
    iterGetUser env now cookie users n (getUserCached env now cookie users st).2

/-! ## Profile service (`src/lib/services/profile.service.ts`) -/

/-- `AppError` (`src/lib/errors/app-error.ts`): an HTTP status, a stable
error code and a human message. -/
structure AppError where
  status : Nat
  code : String
  message : String
  deriving Repr, DecidableEq

/-- The validated seeker-profile creation payload.  Its many scalar fields
are copied wholesale into the created row and never branched on, so the
model carries them as one unanalysed record. -/
structure SeekerInput where
  skills : List String
  jobType : String
  deriving Repr, DecidableEq

/-- The validated company-profile creation payload (same remark as
`SeekerInput`). -/
structure CompanyInput where
  companyName : String
  industry : String
  deriving Repr, DecidableEq

/-- A `SeekerProfile` row: generated id, the copied payload, and
`pastProjectStories` initialised to `[]` on creation. -/
structure SeekerProfile where
  id : String
  data : SeekerInput
  pastProjectStories : List String
  deriving Repr, DecidableEq

/-- A `CompanyProfile` row: generated id and the copied payload. -/
structure CompanyProfile where
  id : String
  data : CompanyInput
  deriving Repr, DecidableEq

/-- The collaborator storage state: the user table, both profile tables,
and a counter from which fresh row ids are generated. -/
structure Db where
  users : List User
  seekerProfiles : List SeekerProfile
  companyProfiles : List CompanyProfile
  nextId : Nat
  deriving Repr, DecidableEq

/-- `prisma.user.update({where: {id}, data: {refObjectId}})`. -/
def setUserRef (users : List User) (uid : String) (ref : String) :
    List User :=
  users.map (fun u => if u.id = uid then { u with refObjectId := some ref } else u)

/-- `createSeekerProfile` (`src/lib/services/profile.service.ts:11-50`):
404 `USER_NOT_FOUND` when the user does not exist, then 403
`INVALID_USER_TYPE` when the role of the user is not `SEEKER`, then 409
`PROFILE_EXISTS` when `refObjectId` is already set; otherwise creates the
profile row and links it via `refObjectId`.  A thrown `AppError` leaves the
storage untouched (the throws all precede the writes). -/
def createSeekerProfile (userId : String) (d : SeekerInput) (db : Db) :
    Except AppError SeekerProfile × Db :=
  match findUserById db.users userId with
  | none => (.error ⟨404, "USER_NOT_FOUND", "User not found"⟩, db)
  | some user =>
    if user.userType ≠ "SEEKER" then
      (.error ⟨403, "INVALID_USER_TYPE",
        "Only seekers can create seeker profiles"⟩, db)
    else
      match user.refObjectId with
      | some _ => (.error ⟨409, "PROFILE_EXISTS", "Profile already exists"⟩, db)
      | none =>
        let profile : SeekerProfile :=
          { id := toString db.nextId, data := d, pastProjectStories := [] }
        (.ok profile,
          { db with
              seekerProfiles := db.seekerProfiles ++ [profile],
              nextId := db.nextId + 1,
              users := setUserRef db.users userId profile.id })

/-- `createCompanyProfile` (`src/lib/services/profile.service.ts:92-132`):
the same check sequence with role `COMPANY` and the company table. -/
def createCompanyProfile (userId : String) (d : CompanyInput) (db : Db) :
    Except AppError CompanyProfile × Db :=
  match findUserById db.users userId with
  | none => (.error ⟨404, "USER_NOT_FOUND", "User not found"⟩, db)
  | some user =>
    if user.userType ≠ "COMPANY" then
      (.error ⟨403, "INVALID_USER_TYPE",
        "Only companies can create company profiles"⟩, db)
    else
      match user.refObjectId with
      | some _ => (.error ⟨409, "PROFILE_EXISTS", "Profile already exists"⟩, db)
      | none =>
        let profile : CompanyProfile :=
          { id := toString db.nextId, data := d }
        (.ok profile,
          { db with
              companyProfiles := db.companyProfiles ++ [profile],
              nextId := db.nextId + 1,
              users := setUserRef db.users userId profile.id })

/-! ## Edge guard (`src/unnamed/part_022`) -/

/-- The route lists of the middleware. -/
def protectedRoutes : List String := ["/dashboard", "/profile"]

/-- Routes on which an authenticated visitor is bounced to the dashboard. -/
def publicRoutes : List String := ["/login", "/register", "/"]

/-- The JavaScript operation `s.startsWith(p)`, phrased over the character lists so
that it evaluates by kernel reduction. -/
def strStartsWith (s p : String) : Bool := p.data.isPrefixOf s.data

/-- The outcome of the middleware: a redirect or `NextResponse.next()`. -/
inductive ProxyResponse where
  | redirect (url : String)
  | next
  deriving Repr, DecidableEq

/-- Truthiness of `session?.userId` for an optional decrypted payload. -/
def sessionUserIdTruthy : Option SessionPayload → Bool
  | none => false
  | some p => strTruthy p.userId

/-- `proxy` (`src/unnamed/part_022:9-34`): computes whether the path is
protected (`startsWith` one of `protectedRoutes`) or public (exact member of
`publicRoutes`), decrypts the `session` cookie, redirects to `/login` for a
protected path without a truthy `session?.userId`, redirects to
`/dashboard` for `/login` or `/register` with one, and otherwise continues. -/
def proxy (env : Option String) (now : Nat) (cookie : Option Token)
    (path : String) : ProxyResponse :=
  let isProtectedRoute := protectedRoutes.any (fun route => strStartsWith path route)
  let isPublicRoute := publicRoutes.contains path
  let session := decrypt env now cookie
  if isProtectedRoute && !sessionUserIdTruthy session then
    .redirect "/login"
  else if isPublicRoute && sessionUserIdTruthy session
      && (path = "/login" || path = "/register") then
    .redirect "/dashboard"
  else
    .next

/-! ## Concrete fixtures used to evaluate the model -/

/-- A concrete server key. -/
def testKey : String := "test-secret"

/-- Claims of a token signed by the server whose `userType` is outside the
`{SEEKER, COMPANY}` enumeration. -/
def adminClaims : JwtClaims :=
  { userId := some "u1", userType := some "ADMIN", expiresAt := some 0,
    iat := 0, exp := SEVEN_DAYS }

/-- A correctly signed token (under `testKey`) carrying `adminClaims`. -/
def adminToken : Token := .jwt "HS256" adminClaims (hmac testKey adminClaims)

/-- Claims of an ordinary seeker session token for user `u1`. -/
def u1Claims : JwtClaims :=
  { userId := some "u1", userType := some "SEEKER",
    expiresAt := some SEVEN_DAYS, iat := 0, exp := SEVEN_DAYS }

/-- A correctly signed ordinary session token for user `u1`. -/
def u1Token : Token := .jwt "HS256" u1Claims (hmac testKey u1Claims)

/-- A concrete seeker-profile creation payload. -/
def seekerIn : SeekerInput := { skills := ["lean"], jobType := "FULL_TIME" }

/-- A concrete company-profile creation payload. -/
def companyIn : CompanyInput := { companyName := "Acme", industry := "software" }

/-- A user with role `COMPANY` whose profile is already linked. -/
def companyUserWithProfile : User :=
  { id := "u1", email := "a@b.c", fullName := "A", userType := "COMPANY",
    refObjectId := some "p1" }

/-- A storage state holding `companyUserWithProfile` and its profile row. -/
def dbCompanyWithProfile : Db :=
  { users := [companyUserWithProfile],
    seekerProfiles := [],
    companyProfiles := [{ id := "p1", data := companyIn }],
    nextId := 2 }

/-- A user with role `SEEKER` whose profile is already linked. -/
def seekerUserWithProfile : User :=
  { id := "u2", email := "s@b.c", fullName := "S", userType := "SEEKER",
    refObjectId := some "sp1" }

/-- A storage state holding `seekerUserWithProfile` and its profile row. -/
def dbSeekerWithProfile : Db :=
  { users := [seekerUserWithProfile],
    seekerProfiles := [{ id := "sp1", data := seekerIn, pastProjectStories := [] }],
    companyProfiles := [],
    nextId := 2 }

/-- The claim set written by `updateSession` when it refreshes a session
payload `p` at time `now`: same identity, renewed seven-day expiry. -/
def refreshClaims (now : Nat) (p : SessionPayload) : JwtClaims :=
  { userId := p.userId, userType := p.userType,
    expiresAt := some (now + SEVEN_DAYS), iat := now, exp := now + SEVEN_DAYS }

/-- The decrypted payload carried by `u1Token`. -/
def u1Payload : SessionPayload :=
  { userId := some "u1", userType := some "SEEKER", expiresAt := some SEVEN_DAYS }

/-! ## Shared lemmas -/

/-- `jwtVerify` accepts a token signed with the right key, algorithm `HS256`
and an unexpired `exp` claim, yielding its claims. -/
theorem jwtVerify_ok (key : String) (claims : JwtClaims) (now : Nat)
    (h : ¬ claims.exp ≤ now) :
    jwtVerify (.jwt "HS256" claims (hmac key claims)) key now = .ok claims := by
  simp only [jwtVerify]
  rw [if_neg (by simp), if_neg (by simp), if_neg h]

/-- When `jwtVerify` accepts, `decrypt` passes the claims through as the
session payload. -/
theorem decrypt_some (key : String) (now : Nat) (tok : Token) (claims : JwtClaims)
    (h : jwtVerify tok key now = .ok claims) :
    decrypt (some key) now (some tok) =
      some { userId := claims.userId, userType := claims.userType,
             expiresAt := claims.expiresAt } := by
  simp only [decrypt, getEncodedKey]
  rw [h]

/-! ## Claims -/

/-- Claim C1, counterexample: the claim asserts that a correctly signed,
unexpired token whose role field is outside the `{SEEKER, COMPANY}`
enumeration is rejected by `decrypt`.  It is not: `adminToken` is signed
with the server key, unexpired at time 5, carries `userType = "ADMIN"`,
and `decrypt` returns a session carrying that role rather than `none`. -/
theorem c1_counterexample :
    decrypt (some testKey) 5 (some adminToken) =
      some { userId := some "u1", userType := some "ADMIN", expiresAt := some 0 } ∧
    "ADMIN" ≠ "SEEKER" ∧ "ADMIN" ≠ "COMPANY" := by decide

/-- Claim C1 (amended): `decrypt` uniformly yields the no-session result
`none` — never a thrown error, by its `Option` type — for a missing token,
a malformed encoding, a wrong algorithm, a signature mismatch, or an
expired timestamp (and for a missing key); but it performs no validation of
the role: a correctly signed, unexpired `HS256` token is accepted and its
claims, whatever the `userType` value, are returned as the session. -/
theorem c1_decrypt_uniform_rejection_no_role_check :
    ∀ (env : Option String) (now : Nat) (session : Option Token),
    (session = none → decrypt env now session = none) ∧
    (env = none → decrypt env now session = none) ∧
    (∀ raw, session = some (.malformed raw) → decrypt env now session = none) ∧
    (∀ key alg claims sig, env = some key → session = some (.jwt alg claims sig) →
      (alg ≠ "HS256" → decrypt env now session = none) ∧
      (sig ≠ hmac key claims → decrypt env now session = none) ∧
      (claims.exp ≤ now → decrypt env now session = none) ∧
      (alg = "HS256" → sig = hmac key claims → now < claims.exp →
        decrypt env now session =
          some { userId := claims.userId, userType := claims.userType,
                 expiresAt := claims.expiresAt })) := by
  intro env now session
  refine ⟨?_, ?_, ?_, ?_⟩
  · rintro rfl; rfl
  · rintro rfl; cases session <;> rfl
  · rintro raw rfl; cases env <;> rfl
  · rintro key alg claims sig rfl rfl
    refine ⟨?_, ?_, ?_, ?_⟩
    · intro h; simp [decrypt, getEncodedKey, jwtVerify, h]
    · intro h
      by_cases ha : alg = "HS256"
      · simp [decrypt, getEncodedKey, jwtVerify, ha, h]
      · simp [decrypt, getEncodedKey, jwtVerify, ha]
    · intro h
      by_cases ha : alg = "HS256"
      · by_cases hs : sig = hmac key claims
        · simp [decrypt, getEncodedKey, jwtVerify, ha, hs, h]
        · simp [decrypt, getEncodedKey, jwtVerify, hs, ha]
      · simp [decrypt, getEncodedKey, jwtVerify, ha]
    · intro ha hs hlt
      have hn : ¬ (claims.exp ≤ now) := by omega
      simp [decrypt, getEncodedKey, jwtVerify, ha, hs, hn]

/-- Claim C1, witness: the rejection branches of the theorem evaluated at a
concrete malformed token and at `adminToken` seen after its expiry. -/
theorem c1_witness :
    decrypt (some testKey) 5 (some (Token.malformed "zz")) = none ∧
    decrypt (some testKey) SEVEN_DAYS (some adminToken) = none :=
  ⟨(c1_decrypt_uniform_rejection_no_role_check (some testKey) 5
      (some (Token.malformed "zz"))).2.2.1 "zz" rfl,
   ((c1_decrypt_uniform_rejection_no_role_check (some testKey) SEVEN_DAYS
      (some adminToken)).2.2.2 testKey "HS256" adminClaims
      (hmac testKey adminClaims) rfl rfl).2.2.1 (by decide)⟩

/-- Claim C2, counterexample: the claim asserts that a valid token whose
subject no longer resolves produces the redirect-to-login effect.  With the
valid `u1Token` and an empty user table, `getUser` instead returns `null`
(`.ok none`) to the caller — a distinguishable outcome, not the redirect —
while `verifySession` confirms the token itself is accepted. -/
theorem c2_counterexample :
    getUser (some testKey) 5 (some u1Token) [] = .ok none ∧
    getUser (some testKey) 5 (some u1Token) [] ≠ .error "/login" ∧
    verifySession (some testKey) 5 (some u1Token) =
      .ok { isAuth := true, userId := "u1", userType := some "SEEKER" } := by decide

/-- Claim C2 (amended): `getUser` produces the redirect-to-login effect
exactly when `verifySession` does (invalid token); when the session is
valid but the subject lookup yields no user, it returns `null` (`.ok none`)
to the caller instead of redirecting. -/
theorem c2_getUser_deleted_subject (env : Option String) (now : Nat)
    (cookie : Option Token) (users : List User) :
    (∀ s, verifySession env now cookie = .ok s →
      findUserById users s.userId = none →
      getUser env now cookie users = .ok none) ∧
    (∀ r, verifySession env now cookie = .error r →
      getUser env now cookie users = .error r) := by
  constructor
  · intro s hs hf
    simp [getUser, hs, hf]
  · intro r hr
    simp [getUser, hr]

/-- Claim C2, witness: the deleted-subject branch evaluated at `u1Token`
against an empty user table. -/
theorem c2_witness :
    getUser (some testKey) 5 (some u1Token) [] = .ok none :=
  (c2_getUser_deleted_subject (some testKey) 5 (some u1Token) []).1
    { isAuth := true, userId := "u1", userType := some "SEEKER" } (by decide) rfl

/-- Claim C3, counterexample: the claim asserts that a missing signing key
is never a per-request failure mode.  With the key unset, the per-request
`encrypt` fails with the thrown key error, and the per-request `decrypt` of
a well-formed token silently returns the no-session result — while the same
token decrypts fine when the key is present.  There is no startup-time load
in the code at all (`getEncodedKey` runs inside each call). -/
theorem c3_counterexample :
    encrypt none 0 u1Payload =
      .error "SESSION_SECRET environment variable is not set" ∧
    decrypt none 5 (some u1Token) = none ∧
    decrypt (some testKey) 5 (some u1Token) ≠ none := by decide

/-- Claim C3 (amended): the key is read from the environment on every
invocation; whenever it is absent, `encrypt` fails per-call with the thrown
error and `decrypt` catches that error and returns the no-session result,
for every input and at every time. -/
theorem c3_missing_key_per_call (now : Nat) (p : SessionPayload)
    (session : Option Token) :
    getEncodedKey none = .error "SESSION_SECRET environment variable is not set" ∧
    encrypt none now p = .error "SESSION_SECRET environment variable is not set" ∧
    decrypt none now session = none := by
  refine ⟨rfl, rfl, ?_⟩
  cases session <;> rfl

/-- Claim C4: round-trip law — for any subject id, any role in the
enumeration and any payload expiry, a token issued by `encrypt` at time
`now` decrypts, at any time `nowV` before the embedded token expiry
(`now + SEVEN_DAYS`), to a session with exactly the issued `userId` and
`userType` (purity and determinism hold by construction: `decrypt` is a
function of the token, the key and the clock). -/
theorem c4_roundtrip (key : String) (now nowV : Nat) (uid ut : String)
    (expMs : Nat) (hrole : ut = "SEEKER" ∨ ut = "COMPANY")
    (hbefore : nowV < now + SEVEN_DAYS) :
    ∃ tok : Token,
      encrypt (some key) now
        { userId := some uid, userType := some ut, expiresAt := some expMs } =
        .ok tok ∧
      decrypt (some key) nowV (some tok) =
        some { userId := some uid, userType := some ut, expiresAt := some expMs } := by
  have _hr := hrole
  have hn : ¬ (now + SEVEN_DAYS ≤ nowV) := by omega
  exact ⟨_, rfl, decrypt_some key nowV _ _ (jwtVerify_ok key _ nowV hn)⟩

/-- Claim C4, witness: the round trip evaluated for user `u1`, role
`SEEKER`, issued at time 0 and verified at time 5. -/
theorem c4_witness :
    ("SEEKER" = "SEEKER" ∨ "SEEKER" = "COMPANY") ∧ (5 : Nat) < 0 + SEVEN_DAYS ∧
    (∃ tok : Token,
      encrypt (some testKey) 0
        { userId := some "u1", userType := some "SEEKER", expiresAt := some 0 } =
        .ok tok ∧
      decrypt (some testKey) 5 (some tok) =
        some { userId := some "u1", userType := some "SEEKER", expiresAt := some 0 }) :=
  ⟨Or.inl rfl, by decide,
    c4_roundtrip testKey 0 5 "u1" "SEEKER" 0 (Or.inl rfl) (by decide)⟩

/-- Claim C5, counterexample: the claim asserts that any call to
`createSeekerProfile` or `createCompanyProfile` for a user whose
`refObjectId` is set fails with the 409 `PROFILE_EXISTS` conflict.  For the
`COMPANY`-role user `u1` with a linked profile, `createSeekerProfile` fails
with 403 `INVALID_USER_TYPE` instead — the role check precedes the
conflict check. -/
theorem c5_counterexample :
    (createSeekerProfile "u1" seekerIn dbCompanyWithProfile).1 =
      .error ⟨403, "INVALID_USER_TYPE", "Only seekers can create seeker profiles"⟩ ∧
    (createSeekerProfile "u1" seekerIn dbCompanyWithProfile).1 ≠
      .error ⟨409, "PROFILE_EXISTS", "Profile already exists"⟩ ∧
    (findUserById dbCompanyWithProfile.users "u1").map User.refObjectId =
      some (some "p1") := by decide

/-- Claim C5 (amended): for a user whose `refObjectId` is already set, a
creation call whose kind matches the role of the user fails with the 409
`PROFILE_EXISTS` conflict, a mismatched-kind call fails with 403
`INVALID_USER_TYPE`, and in every case the storage is returned unchanged —
the second creation never overwrites the first profile or the linkage. -/
theorem c5_second_creation_no_overwrite (db : Db) (uid rid : String) (u : User)
    (dS : SeekerInput) (dC : CompanyInput)
    (hu : findUserById db.users uid = some u)
    (href : u.refObjectId = some rid) :
    ((u.userType = "SEEKER" →
        createSeekerProfile uid dS db =
          (.error ⟨409, "PROFILE_EXISTS", "Profile already exists"⟩, db)) ∧
     (u.userType ≠ "SEEKER" →
        createSeekerProfile uid dS db =
          (.error ⟨403, "INVALID_USER_TYPE",
            "Only seekers can create seeker profiles"⟩, db))) ∧
    ((u.userType = "COMPANY" →
        createCompanyProfile uid dC db =
          (.error ⟨409, "PROFILE_EXISTS", "Profile already exists"⟩, db)) ∧
     (u.userType ≠ "COMPANY" →
        createCompanyProfile uid dC db =
          (.error ⟨403, "INVALID_USER_TYPE",
            "Only companies can create company profiles"⟩, db))) := by
  refine ⟨⟨?_, ?_⟩, ⟨?_, ?_⟩⟩ <;> intro h <;>
    simp only [createSeekerProfile, createCompanyProfile, hu] <;>
    simp [h, href]

/-- Claim C5, witness: the matching-kind branch evaluated for the
`SEEKER`-role user `u2` that already owns profile `sp1`. -/
theorem c5_witness :
    createSeekerProfile "u2" seekerIn dbSeekerWithProfile =
      (.error ⟨409, "PROFILE_EXISTS", "Profile already exists"⟩, dbSeekerWithProfile) :=
  ((c5_second_creation_no_overwrite dbSeekerWithProfile "u2" "sp1"
      seekerUserWithProfile seekerIn companyIn (by decide) (by decide)).1).1
    (by decide)

/-- Claim C6: for an existing user whose role does not match the profile
kind being created, the call fails with the 403 `INVALID_USER_TYPE`
authorization error — an error value distinct from the 404 `USER_NOT_FOUND`
one — and the storage is returned unchanged, so no profile row is created
and the `refObjectId` linkage stays as it was. -/
theorem c6_role_mismatch_403 (db : Db) (uid : String) (u : User)
    (dS : SeekerInput) (dC : CompanyInput)
    (hu : findUserById db.users uid = some u) :
    (u.userType = "COMPANY" →
       createSeekerProfile uid dS db =
         (.error ⟨403, "INVALID_USER_TYPE",
           "Only seekers can create seeker profiles"⟩, db)) ∧
    (u.userType = "SEEKER" →
       createCompanyProfile uid dC db =
         (.error ⟨403, "INVALID_USER_TYPE",
           "Only companies can create company profiles"⟩, db)) ∧
    (⟨403, "INVALID_USER_TYPE", "Only seekers can create seeker profiles"⟩ : AppError) ≠
      ⟨404, "USER_NOT_FOUND", "User not found"⟩ ∧
    (⟨403, "INVALID_USER_TYPE", "Only companies can create company profiles"⟩ : AppError) ≠
      ⟨404, "USER_NOT_FOUND", "User not found"⟩ := by
  refine ⟨?_, ?_, by decide, by decide⟩ <;> intro h <;>
    simp only [createSeekerProfile, createCompanyProfile, hu] <;> simp [h]

/-- Claim C6, witness: the `COMPANY`-role user `u1` calling
`createSeekerProfile` receives the 403 error and the storage is unchanged. -/
theorem c6_witness :
    createSeekerProfile "u1" seekerIn dbCompanyWithProfile =
      (.error ⟨403, "INVALID_USER_TYPE",
        "Only seekers can create seeker profiles"⟩, dbCompanyWithProfile) :=
  (c6_role_mismatch_403 dbCompanyWithProfile "u1" companyUserWithProfile
    seekerIn companyIn (by decide)).1 (by decide)

/-- Claim C7: the edge guard decides exactly per the decision table — a
protected path (prefix `/dashboard` or `/profile`) without a valid token
redirects to `/login`; a public-only path (`/login` or `/register`) with a
valid token redirects to `/dashboard`; every other combination continues
with `NextResponse.next()`.  A valid token is one whose decrypted payload
carries a truthy `userId`, the notion the code itself branches on. -/
theorem c7_proxy_decision_table (env : Option String) (now : Nat)
    (cookie : Option Token) (path : String) :
    ((strStartsWith path "/dashboard" || strStartsWith path "/profile") = true →
      sessionUserIdTruthy (decrypt env now cookie) = false →
      proxy env now cookie path = .redirect "/login") ∧
    ((path = "/login" ∨ path = "/register") →
      sessionUserIdTruthy (decrypt env now cookie) = true →
      proxy env now cookie path = .redirect "/dashboard") ∧
    (((strStartsWith path "/dashboard" || strStartsWith path "/profile") = false ∨
        sessionUserIdTruthy (decrypt env now cookie) = true) →
      (¬ (path = "/login" ∨ path = "/register") ∨
        sessionUserIdTruthy (decrypt env now cookie) = false) →
      proxy env now cookie path = .next) := by
  refine ⟨?_, ?_, ?_⟩
  · intro h1 h2
    simp [proxy, protectedRoutes, publicRoutes, h1, h2]
  · intro h1 h2
    rcases h1 with rfl | rfl <;>
      simp [proxy, protectedRoutes, publicRoutes, h2]
  · intro h1 h2
    rcases h2 with h2 | h2
    · push_neg at h2
      obtain ⟨hne1, hne2⟩ := h2
      rcases h1 with h1 | h1 <;>
        simp [proxy, protectedRoutes, publicRoutes, h1, hne1, hne2]
    · rcases h1 with h1 | h1
      · simp [proxy, protectedRoutes, publicRoutes, h1, h2]
      · rw [h1] at h2
        exact absurd h2 (by simp)

/-- Claim C7, witness: the three rows of the table evaluated at concrete
requests — `/dashboard/x` without a cookie, `/login` with the valid
`u1Token`, and `/about` without a cookie. -/
theorem c7_witness :
    proxy (some testKey) 5 none "/dashboard/x" = .redirect "/login" ∧
    proxy (some testKey) 5 (some u1Token) "/login" = .redirect "/dashboard" ∧
    proxy (some testKey) 5 none "/about" = .next :=
  ⟨(c7_proxy_decision_table (some testKey) 5 none "/dashboard/x").1
      (by decide) (by decide),
   (c7_proxy_decision_table (some testKey) 5 (some u1Token) "/login").2.1
      (Or.inl rfl) (by decide),
   (c7_proxy_decision_table (some testKey) 5 none "/about").2.2
      (Or.inl (by decide)) (Or.inr (by decide))⟩

/-- Claim C8: within one request (one memo state starting from `freshReq`),
calling the cached authoritative gate `n ≥ 1` times performs at most one
cryptographic verification and at most one subject-storage lookup; the memo
state is a value scoped to the request, so nothing is shared across
requests by construction. -/
theorem c8_memoized_single_lookup (env : Option String) (now : Nat)
    (cookie : Option Token) (users : List User) (n : Nat) (hn : 1 ≤ n) :
    (iterGetUser env now cookie users n freshReq).decryptCalls ≤ 1 ∧
    (iterGetUser env now cookie users n freshReq).dbLookups ≤ 1 := by
  obtain ⟨k, rfl⟩ : ∃ k, n = k + 1 := ⟨n - 1, by omega⟩
  have hstep : ∀ st, (getUserCached env now cookie users st).2 = st →
      ∀ m, iterGetUser env now cookie users m st = st := by
    intro st hst m
    induction m with
    | zero => rfl
    | succ m ih => simp [iterGetUser, hst, ih]
  cases hv : verifySession env now cookie with
  | error r =>
    have hfix : (getUserCached env now cookie users
        (getUserCached env now cookie users freshReq).2).2 =
        (getUserCached env now cookie users freshReq).2 := by
      simp [getUserCached, verifySessionCached, freshReq, hv]
    have hiter : iterGetUser env now cookie users (k + 1) freshReq =
        (getUserCached env now cookie users freshReq).2 := by
      simp only [iterGetUser]
      exact hstep _ hfix k
    rw [hiter]
    simp [getUserCached, verifySessionCached, freshReq, hv]
  | ok s =>
    have hfix : (getUserCached env now cookie users
        (getUserCached env now cookie users freshReq).2).2 =
        (getUserCached env now cookie users freshReq).2 := by
      simp [getUserCached, verifySessionCached, freshReq, hv]
    have hiter : iterGetUser env now cookie users (k + 1) freshReq =
        (getUserCached env now cookie users freshReq).2 := by
      simp only [iterGetUser]
      exact hstep _ hfix k
    rw [hiter]
    simp [getUserCached, verifySessionCached, freshReq, hv]

/-- Claim C8, witness: three calls within one request, with a valid cookie
and a matching user row, trigger at most one verification and one lookup. -/
theorem c8_witness :
    (1 : Nat) ≤ 3 ∧
    (iterGetUser (some testKey) 5 (some u1Token)
        [{ id := "u1", email := "a@b.c", fullName := "A", userType := "SEEKER",
           refObjectId := none }] 3 freshReq).decryptCalls ≤ 1 ∧
    (iterGetUser (some testKey) 5 (some u1Token)
        [{ id := "u1", email := "a@b.c", fullName := "A", userType := "SEEKER",
           refObjectId := none }] 3 freshReq).dbLookups ≤ 1 :=
  ⟨by decide, c8_memoized_single_lookup (some testKey) 5 (some u1Token) _ 3 (by decide)⟩

/-- Claim C9: `updateSession` is a no-op returning the cookie jar untouched
(and raising no error) when the current cookie holds no valid session; when
it holds a valid session with payload `p`, it overwrites the cookie with a
newly issued token whose claims carry the same `userId` and `userType` and
a renewed seven-day expiry, and that token decrypts back to the same
identity. -/
theorem c9_updateSession_refresh (env : Option String) (now : Nat)
    (jar : Option Token) :
    (decrypt env now jar = none → updateSession env now jar = .ok jar) ∧
    (∀ key p, env = some key → decrypt env now jar = some p →
      updateSession env now jar =
        .ok (some (Token.jwt "HS256" (refreshClaims now p)
          (hmac key (refreshClaims now p)))) ∧
      decrypt (some key) now
          (some (Token.jwt "HS256" (refreshClaims now p)
            (hmac key (refreshClaims now p)))) =
        some { userId := p.userId, userType := p.userType,
               expiresAt := some (now + SEVEN_DAYS) }) := by
  constructor
  · intro h
    simp only [updateSession, h]
  · rintro key p rfl hd
    constructor
    · simp only [updateSession, hd, encrypt, getEncodedKey, refreshClaims]
    · have hn : ¬ (now + SEVEN_DAYS ≤ now) := by
        have : 0 < SEVEN_DAYS := by decide
        omega
      exact decrypt_some key now _ _ (jwtVerify_ok key (refreshClaims now p) now hn)

/-- Claim C9, witness: refreshing the valid `u1Token` at time 5 overwrites
the cookie with the re-issued token carrying the same identity. -/
theorem c9_witness :
    updateSession (some testKey) 5 (some u1Token) =
      .ok (some (Token.jwt "HS256" (refreshClaims 5 u1Payload)
        (hmac testKey (refreshClaims 5 u1Payload)))) :=
  ((c9_updateSession_refresh (some testKey) 5 (some u1Token)).2 testKey
    u1Payload rfl (by decide)).1

/-- Claim C10: precedence of the precondition checks — a call for a
non-existent user always fails with 404 `USER_NOT_FOUND` regardless of the
payload, and a wrong-role user who already has a linked profile receives
the 403 `INVALID_USER_TYPE` error, not the 409 conflict. -/
theorem c10_check_precedence (db : Db) (uid : String)
    (dS : SeekerInput) (dC : CompanyInput) :
    (findUserById db.users uid = none →
      createSeekerProfile uid dS db =
        (.error ⟨404, "USER_NOT_FOUND", "User not found"⟩, db) ∧
      createCompanyProfile uid dC db =
        (.error ⟨404, "USER_NOT_FOUND", "User not found"⟩, db)) ∧
    (∀ u rid, findUserById db.users uid = some u → u.refObjectId = some rid →
      (u.userType ≠ "SEEKER" →
        createSeekerProfile uid dS db =
          (.error ⟨403, "INVALID_USER_TYPE",
            "Only seekers can create seeker profiles"⟩, db)) ∧
      (u.userType ≠ "COMPANY" →
        createCompanyProfile uid dC db =
          (.error ⟨403, "INVALID_USER_TYPE",
            "Only companies can create company profiles"⟩, db))) := by
  constructor
  · intro h
    constructor <;> simp only [createSeekerProfile, createCompanyProfile, h]
  · intro u rid hu href
    constructor <;> intro h <;>
      simp only [createSeekerProfile, createCompanyProfile, hu] <;> simp [h]

/-- Claim C10, witness: an unknown user id receives 404, and the
`COMPANY`-role user `u1` with a linked profile receives 403 from
`createSeekerProfile`, not 409. -/
theorem c10_witness :
    createSeekerProfile "nobody" seekerIn dbCompanyWithProfile =
      (.error ⟨404, "USER_NOT_FOUND", "User not found"⟩, dbCompanyWithProfile) ∧
    createSeekerProfile "u1" seekerIn dbCompanyWithProfile =
      (.error ⟨403, "INVALID_USER_TYPE",
        "Only seekers can create seeker profiles"⟩, dbCompanyWithProfile) :=
  ⟨((c10_check_precedence dbCompanyWithProfile "nobody" seekerIn companyIn).1
      (by decide)).1,
   ((c10_check_precedence dbCompanyWithProfile "u1" seekerIn companyIn).2
      companyUserWithProfile "p1" (by decide) (by decide)).1 (by decide)⟩

end Webapp
